import Mathlib

/-!
A shallow embedding in Lean 4 of `packages/core/useMediaControls/index.ts`
(the `useMediaControls` composable), together with theorems checking the
natural-language specification against it.

Modelling conventions:
* Reactive refs become explicit fields of plain state records; a watch
  callback firing on a write is made explicit by threading state.
* The native media element is a record of just the attributes the code
  reads or writes (track modes, current time, paused flag, child nodes,
  a load counter); an unbound element reference is `Option.none`.
* JavaScript truthiness is modelled explicitly where the code branches on
  it (`if (track)`, `if (!src)`).
* Fallible native indexed access (`el.textTracks[id]` out of range) is
  modelled with `Option`: `none` is the native failure.
* Float-valued times/rates carry no arithmetic in this code, only copies,
  so they are modelled as `Rat`.
-/

namespace MediaControls

/-- Display mode of a native text track (`TextTrackMode`). -/
inductive TextTrackMode where
  | disabled
  | hidden
  | showing
deriving DecidableEq, Repr

/-- Kind of the text track; the source treats it as an opaque string. -/
abbrev TextTrackKind := String

/-- A native `TextTrack` as read by `tracksToArray`: the fields the
destructuring pattern extracts. Cue lists are opaque here; the code only
copies them. -/
structure NativeTextTrack where
  label : String
  kind : TextTrackKind
  language : String
  mode : TextTrackMode
  activeCues : Option (List String)
  cues : Option (List String)
  inBandMetadataTrackDispatchType : String
deriving DecidableEq, Repr

/-- The exported `UseMediaTextTrack` interface: a track descriptor whose
`id` is its index in the rebuilt list. -/
structure UseMediaTextTrack where
  id : Nat
  label : String
  language : String
  mode : TextTrackMode
  kind : TextTrackKind
  inBandMetadataTrackDispatchType : String
  cues : Option (List String)
  activeCues : Option (List String)
deriving DecidableEq, Repr

/-- Source function `tracksToArray`: converts a `TextTrackList` to an array of
`UseMediaTextTrack`, the map callback receiving the element index as the
descriptor's `id`. -/
def tracksToArray (tracks : List NativeTextTrack) : List UseMediaTextTrack :=
  tracks.enum.map fun p =>
    { id := p.1
      label := p.2.label
      kind := p.2.kind
      language := p.2.language
      mode := p.2.mode
      activeCues := p.2.activeCues
      cues := p.2.cues
      inBandMetadataTrackDispatchType := p.2.inBandMetadataTrackDispatchType }

/-- The argument of `disableTrack` / `enableTrack`:
`number | UseMediaTextTrack`. -/
inductive TrackRef where
  | num (n : Nat)
  | desc (t : UseMediaTextTrack)
deriving DecidableEq, Repr

/-- JavaScript truthiness of a present `track` argument: the number 0 is
falsy, every other number and every object is truthy. -/
def TrackRef.truthy : TrackRef → Bool
  | .num n => n != 0
  | .desc _ => true

/-- Resolution `isNumber(track) ? track : track.id`. -/
def TrackRef.id : TrackRef → Nat
  | .num n => n
  | .desc t => t.id

/-- State touched by the track-selection operations: the bound element's
native track modes (`none` when no element is bound) and the
`selectedTrack` ref. -/
structure MediaState where
  el : Option (List TextTrackMode)
  selectedTrack : Int
deriving DecidableEq, Repr

/-- Native write `el.textTracks[id].mode = m`: fallible native indexed write; fails
(native `TypeError`) when `id` is out of range. -/
def setTrackMode (modes : List TextTrackMode) (id : Nat) (m : TextTrackMode) :
    Option (List TextTrackMode) :=
  if id < modes.length then some (modes.set id m) else none

/-- The `else` branch of `disableTrack`: the loop setting every track's
mode to "disabled". -/
def disableAllModes (modes : List TextTrackMode) : List TextTrackMode :=
  modes.map fun _ => TextTrackMode.disabled

/-- Operation `disableTrack(track?)`. Mirrors the source: a no-op when no element is
bound (`usingElRef`); otherwise branches on JavaScript truthiness of
`track` — a truthy argument disables only that track, a falsy one
(absent, or the number 0) disables every track — then sets
`selectedTrack` to -1. -/
def disableTrack (s : MediaState) (track : Option TrackRef) : Option MediaState :=
  match s.el with
  | none => some s
  | some modes =>
    let newModes : Option (List TextTrackMode) :=
      match track with
      | some t =>
        if t.truthy then setTrackMode modes t.id TextTrackMode.disabled
        else some (disableAllModes modes)
      | none => some (disableAllModes modes)
    newModes.map fun ms => { el := some ms, selectedTrack := -1 }

/-- Operation `enableTrack(track, disableTracks = true)`. A no-op when no element is
bound; otherwise optionally runs `disableTrack()` (which momentarily sets
`selectedTrack` to -1), then sets the referenced track's mode to
"showing" and `selectedTrack` to its id. The net state after the
overwrite is returned. -/
def enableTrack (s : MediaState) (track : TrackRef) (disableTracks : Bool) :
    Option MediaState :=
  match s.el with
  | none => some s
  | some modes =>
    let modes1 := if disableTracks then disableAllModes modes else modes
    (setTrackMode modes1 track.id TextTrackMode.showing).map fun ms =>
      { el := some ms, selectedTrack := Int.ofNat track.id }

/-! ### Source reconciliation (`watchEffect` injecting `<source>` children) -/

/-- The exported `UseMediaSource` interface: a source url plus an optional
codec type. -/
structure UseMediaSource where
  src : String
  type : Option String
deriving DecidableEq, Repr

/-- The `src` option: `string | UseMediaSource | UseMediaSource[]`. -/
inductive SrcOption where
  | str (s : String)
  | one (d : UseMediaSource)
  | many (l : List UseMediaSource)
deriving DecidableEq, Repr

/-- JavaScript truthiness of the unref'd `src` value (`if (!src) return`):
`undefined` and the empty string are falsy; objects and arrays are always
truthy. -/
def srcTruthy : Option SrcOption → Bool
  | none => false
  | some (.str s) => s != ""
  | some (.one _) => true
  | some (.many _) => true

/-- The `isString / Array.isArray / isObject` cascade merging `src` into
an array of `UseMediaSource`. -/
def normalizeSrc : SrcOption → List UseMediaSource
  | .str s => [{ src := s, type := none }]
  | .many l => l
  | .one d => [d]

/-- A `<source>` child element as the effect creates it: its `src` and
`type` attributes and the number of `error` listeners attached. -/
structure SourceEl where
  src : String
  type : String
  errorListeners : Nat
deriving DecidableEq, Repr

/-- The slice of the media element the source effect touches: its
`<source>` children and how many times `load()` has been invoked. -/
structure MediaElSources where
  sources : List SourceEl
  loadCount : Nat
deriving DecidableEq, Repr

/-- One run of the source-reconciliation `watchEffect`: returns early when
there is no document, no bound element, or a falsy `src`; otherwise
removes every existing `<source>` child (deregistering its error listener
first), appends one child per normalized entry — `src` attribute from the
entry, `type` attribute `type || ''`, one error listener attached — and
invokes `load()` once. -/
def sourcesWatchEffect (doc : Bool) (el : Option MediaElSources)
    (srcOpt : Option SrcOption) : Option MediaElSources :=
  if doc = false then el
  else
    match el with
    | none => none
    | some e =>
      if srcTruthy srcOpt = false then some e
      else
        match srcOpt with
        | none => some e
        | some src =>
          let sources := normalizeSrc src
          let newChildren := sources.map fun d =>
            { src := d.src, type := d.type.getD "", errorListeners := 1 }
          some { sources := newChildren, loadCount := e.loadCount + 1 }

/-! ### Track reconciliation (`watchEffect` loading `<track>` children) -/

/-- A caller-supplied text-track descriptor (`UseMediaTextTrackSource`). -/
structure UseMediaTextTrackSource where
  default : Option Bool
  kind : TextTrackKind
  label : String
  src : String
  srcLang : String
deriving DecidableEq, Repr

/-- A `<track>` child element as the effect creates it. -/
structure TrackEl where
  default : Bool
  kind : TextTrackKind
  label : String
  src : String
  srclang : String
deriving DecidableEq, Repr

/-- The `<track>` child built from one descriptor:
`track.default = isDefault || false` and a field-by-field copy. -/
def buildTrackEl (d : UseMediaTextTrackSource) : TrackEl :=
  { default := d.default.getD false
    kind := d.kind
    label := d.label
    src := d.src
    srclang := d.srcLang }

/-- The final value of `selectedTrack` after the descriptor loop: each
descriptor whose created `<track>` has `default` set writes its ordinal
position, so the last default wins; with no default the previous value
survives. -/
def tracksEffectSelected (ts : List UseMediaTextTrackSource) (sel : Int) : Int :=
  ts.enum.foldl (fun acc p => if (buildTrackEl p.2).default then Int.ofNat p.1 else acc) sel

/-- One run of the track-loading `watchEffect`: returns early when there
is no document, the descriptor list is absent or empty, or no element is
bound; otherwise removes every existing `<track>` child, appends one new
child per descriptor in order, and updates `selectedTrack` as
`tracksEffectSelected` describes. Returns the element's `<track>`
children and the `selectedTrack` ref after the run. -/
def loadTracksWatchEffect (doc : Bool) (el : Option (List TrackEl))
    (textTracks : Option (List UseMediaTextTrackSource)) (sel : Int) :
    Option (List TrackEl) × Int :=
  if doc = false then (el, sel)
  else
    match textTracks, el with
    | some ts, some _ =>
      if ts.length = 0 then (el, sel)
      else (some (ts.map buildTrackEl), tracksEffectSelected ts sel)
    | _, _ => (el, sel)

/-! ### Picture-in-picture toggle -/

/-- Which native request the promise returned by
`togglePictureInPicture()` is chained to. -/
inductive PipRequest where
  | request
  | exitReq
deriving DecidableEq, Repr

/-- Operation `togglePictureInPicture()`: the returned promise's `resolve`/`reject`
are wired to a native request only when an element is bound
(`usingElRef`) and `supportsPictureInPicture` holds — to
`requestPictureInPicture()` when not currently in picture-in-picture,
else to `exitPictureInPicture()`. `none` means neither `resolve` nor
`reject` is ever invoked: the promise never settles. -/
def togglePictureInPicture (elBound supports isPip : Bool) : Option PipRequest :=
  if elBound then
    if supports then
      if isPip = false then some PipRequest.request
      else some PipRequest.exitReq
    else none
  else none

/-! ### Bidirectional sync state machine (refs, watch callbacks, listeners)

The reactive primitives consumed here (`ignorableWatch` from
`@vueuse/shared`, `useEventListener`) are not part of this package's
source; their semantics is modelled from the spec: a watch on a cell runs
its callback on every write to the cell unless the write happens inside
that watch's `ignoreUpdates` wrapper, and an event listener attached to
the bound element runs its handler when the element fires the event. -/

/-- The sync state: every state ref of the composable on the left, the
element attributes the handlers read and the effects write on the right,
plus counters recording how many times each element mutation
(`el.currentTime = _`, `play()`, `pause()`) has been issued. -/
structure SyncState where
  currentTime : Rat
  duration : Rat
  seeking : Bool
  buffering : Bool
  waiting : Bool
  ended : Bool
  playing : Bool
  rate : Rat
  stalled : Bool
  buffered : List (Rat × Rat)
  isPictureInPicture : Bool
  elCurrentTime : Rat
  elDuration : Rat
  elBuffered : List (Rat × Rat)
  elPlaybackRate : Rat
  elPaused : Bool
  seekCount : Nat
  playCount : Nat
  pauseCount : Nat
deriving DecidableEq, Repr

/-- Source function `timeRangeToArray`: the loop rebuilding the buffered-range list from
the element's `TimeRanges` object, appending `[start(i), end(i)]` for
each index in order. -/
def timeRangeToArray (timeRanges : List (Rat × Rat)) : List (Rat × Rat) :=
  timeRanges.foldl (fun ranges r => ranges ++ [r]) []

/-- The callback of the `ignorableWatch` on `currentTime`: assigns
`el.currentTime` (counted as one seek) when an element is bound, a no-op
otherwise. -/
def currentTimeWatchCb (elBound : Bool) (time : Rat) (s : SyncState) : SyncState :=
  if elBound then { s with elCurrentTime := time, seekCount := s.seekCount + 1 }
  else s

/-- A write to the `currentTime` ref. Modelled from the spec:
`ignorableWatch` runs `currentTimeWatchCb` on the write unless the write
is wrapped in `ignoreCurrentTimeUpdates` (`ignored = true`). -/
def writeCurrentTime (elBound ignored : Bool) (v : Rat) (s : SyncState) : SyncState :=
  let s1 := { s with currentTime := v }
  if ignored then s1 else currentTimeWatchCb elBound v s1

/-- The callback of the `ignorableWatch` on `playing`: calls `play()` or
`pause()` on the bound element, a no-op otherwise. -/
def playingWatchCb (elBound : Bool) (isPlaying : Bool) (s : SyncState) : SyncState :=
  if elBound then
    if isPlaying then { s with elPaused := false, playCount := s.playCount + 1 }
    else { s with elPaused := true, pauseCount := s.pauseCount + 1 }
  else s

/-- A write to the `playing` ref. Modelled from the spec: `ignorableWatch`
runs `playingWatchCb` on the write unless the write is wrapped in
`ignorePlayingUpdates` (`ignored = true`). -/
def writePlaying (elBound ignored : Bool) (v : Bool) (s : SyncState) : SyncState :=
  let s1 := { s with playing := v }
  if ignored then s1 else playingWatchCb elBound v s1

/-- The native media events the composable registers a `useEventListener`
handler for. -/
inductive MediaEvent where
  | timeupdate
  | durationchange
  | progress
  | seeking
  | seeked
  | waiting
  | playing
  | ratechange
  | stalled
  | ended
  | pause
  | play
  | enterpictureinpicture
  | leavepictureinpicture
deriving DecidableEq, Repr

/-- The complete `useEventListener` handler block, one case per registered
event. Events fire only from a bound element, so the element is bound
here. The `timeupdate`, `pause` and `play` handlers wrap their ref write
in the corresponding `ignoreUpdates`; every other handler writes its ref
directly. -/
def handleEvent (e : MediaEvent) (s : SyncState) : SyncState :=
  match e with
  | .timeupdate => writeCurrentTime true true s.elCurrentTime s
  | .durationchange => { s with duration := s.elDuration }
  | .progress => { s with buffered := timeRangeToArray s.elBuffered }
  | .seeking => { s with seeking := true }
  | .seeked => { s with seeking := false }
  | .waiting => { s with waiting := true }
  | .playing => { s with waiting := false }
  | .ratechange => { s with rate := s.elPlaybackRate }
  | .stalled => { s with stalled := true }
  | .ended => { s with ended := true }
  | .pause => writePlaying true true false s
  | .play => writePlaying true true true s
  | .enterpictureinpicture => { s with isPictureInPicture := true }
  | .leavepictureinpicture => { s with isPictureInPicture := false }

/-! ### Sample data used by witness theorems -/

/-- A sample native text track. -/
def sampleNativeTrackEn : NativeTextTrack :=
  { label := "EN"
    kind := "subtitles"
    language := "en"
    mode := TextTrackMode.disabled
    activeCues := none
    cues := some ["hello"]
    inBandMetadataTrackDispatchType := "" }

/-- A sample sync state with `buffering = false`, used to exhibit that no
event handler ever writes the `buffering` ref. -/
def sampleSync : SyncState :=
  { currentTime := 0
    duration := 0
    seeking := false
    buffering := false
    waiting := false
    ended := false
    playing := false
    rate := 1
    stalled := false
    buffered := []
    isPictureInPicture := false
    elCurrentTime := 5
    elDuration := 7
    elBuffered := [(0, 3)]
    elPlaybackRate := 2
    elPaused := true
    seekCount := 0
    playCount := 0
    pauseCount := 0 }

/-- The spec's sample English track descriptor (`default: false`). -/
def sampleTrackSrcEn : UseMediaTextTrackSource :=
  { default := some false
    kind := "subtitles"
    label := "EN"
    src := "en.vtt"
    srcLang := "en" }

/-- The spec's sample French track descriptor (`default: true`). -/
def sampleTrackSrcFr : UseMediaTextTrackSource :=
  { default := some true
    kind := "subtitles"
    label := "FR"
    src := "fr.vtt"
    srcLang := "fr" }

/-- A second sample native text track. -/
def sampleNativeTrackFr : NativeTextTrack :=
  { label := "FR"
    kind := "subtitles"
    language := "fr"
    mode := TextTrackMode.showing
    activeCues := some []
    cues := none
    inBandMetadataTrackDispatchType := "t" }

end MediaControls

namespace MediaControls

/-! ### Theorems for the claims -/

/-- Claim C4: when the picture-in-picture support flag is false, the
promise returned by `togglePictureInPicture()` never settles — its
`resolve`/`reject` are never wired to any native request — whatever the
element binding and current picture-in-picture state are. -/
theorem togglePictureInPicture_unsupported_never_settles :
    ∀ (elBound isPip : Bool),
      togglePictureInPicture elBound false isPip = none := by
  decide

/-- Claim C10: when no element is bound at the time of the call, the
promise returned by `togglePictureInPicture()` never settles, even when
the support flag is true (`usingElRef` skips the whole callback). -/
theorem togglePictureInPicture_unbound_never_settles :
    ∀ (supports isPip : Bool),
      togglePictureInPicture false supports isPip = none := by
  decide

/-- Claim C2, evaluation at the failing input: with two native tracks both
"showing", `disableTrack(0)` — the numeric id 0 — disables BOTH tracks,
not only track 0: the JavaScript truthiness test `if (track)` is false
for the number 0, so the call falls into the disable-everything branch. -/
theorem disableTrack_numeric_zero_disables_all :
    disableTrack
        { el := some [TextTrackMode.showing, TextTrackMode.showing], selectedTrack := 0 }
        (some (TrackRef.num 0)) =
      some { el := some [TextTrackMode.disabled, TextTrackMode.disabled],
             selectedTrack := -1 } := by
  decide

/-- Claim C9: whenever the `tracks` state list is rebuilt by
`tracksToArray`, it has one entry per native track, and the i-th entry
carries `id = i` together with the i-th native track's fields, so entries
appear in the native collection's order. -/
theorem tracksToArray_id_eq_index (l : List NativeTextTrack) (i : Nat)
    (h : i < (tracksToArray l).length) :
    (tracksToArray l).length = l.length ∧
    ∃ h' : i < l.length,
      (tracksToArray l)[i] =
        { id := i
          label := l[i].label
          kind := l[i].kind
          language := l[i].language
          mode := l[i].mode
          activeCues := l[i].activeCues
          cues := l[i].cues
          inBandMetadataTrackDispatchType := l[i].inBandMetadataTrackDispatchType } := by
  have hlen : (tracksToArray l).length = l.length := by
    simp [tracksToArray, List.enum_length]
  refine ⟨hlen, hlen ▸ h, ?_⟩
  simp [tracksToArray, List.getElem_map, List.getElem_enum]

/-- Witness for `tracksToArray_id_eq_index` at a concrete two-track list
and index 1. -/
theorem tracksToArray_id_eq_index_witness :
    1 < (tracksToArray [sampleNativeTrackEn, sampleNativeTrackFr]).length ∧
    ((tracksToArray [sampleNativeTrackEn, sampleNativeTrackFr]).length = 2 ∧
     ∃ h' : 1 < ([sampleNativeTrackEn, sampleNativeTrackFr] :
          List NativeTextTrack).length,
       (tracksToArray [sampleNativeTrackEn, sampleNativeTrackFr])[1] =
         { id := 1
           label := sampleNativeTrackFr.label
           kind := sampleNativeTrackFr.kind
           language := sampleNativeTrackFr.language
           mode := sampleNativeTrackFr.mode
           activeCues := sampleNativeTrackFr.activeCues
           cues := sampleNativeTrackFr.cues
           inBandMetadataTrackDispatchType :=
             sampleNativeTrackFr.inBandMetadataTrackDispatchType }) := by
  refine ⟨by decide, ?_⟩
  have h := tracksToArray_id_eq_index [sampleNativeTrackEn, sampleNativeTrackFr] 1 (by decide)
  simpa [sampleNativeTrackEn, sampleNativeTrackFr] using h

/-- Claim C1: for each bidirectional field, with an element bound, a
caller-initiated write to the state cell reaches the element exactly once
(the watch callback issues exactly one `el.currentTime` assignment
respectively one `play()`/`pause()` call), and the element's echo event
(`timeupdate`, `play`, `pause`) updates the state cell exactly once while
its suppression wrapper keeps it from re-triggering the state-to-element
effect: no second seek, no `play()`/`pause()` call, the element left
untouched. -/
theorem bidirectional_sync_once_no_feedback (s : SyncState) (v : Rat) (b : Bool) :
    ((writeCurrentTime true false v s).currentTime = v ∧
     (writeCurrentTime true false v s).elCurrentTime = v ∧
     (writeCurrentTime true false v s).seekCount = s.seekCount + 1) ∧
    ((handleEvent MediaEvent.timeupdate s).currentTime = s.elCurrentTime ∧
     (handleEvent MediaEvent.timeupdate s).seekCount = s.seekCount ∧
     (handleEvent MediaEvent.timeupdate s).elCurrentTime = s.elCurrentTime) ∧
    ((writePlaying true false b s).playing = b ∧
     (writePlaying true false b s).elPaused = !b ∧
     (writePlaying true false b s).playCount = s.playCount + (if b then 1 else 0) ∧
     (writePlaying true false b s).pauseCount = s.pauseCount + (if b then 0 else 1)) ∧
    ((handleEvent MediaEvent.play s).playing = true ∧
     (handleEvent MediaEvent.play s).playCount = s.playCount ∧
     (handleEvent MediaEvent.play s).pauseCount = s.pauseCount ∧
     (handleEvent MediaEvent.play s).elPaused = s.elPaused ∧
     (handleEvent MediaEvent.pause s).playing = false ∧
     (handleEvent MediaEvent.pause s).playCount = s.playCount ∧
     (handleEvent MediaEvent.pause s).pauseCount = s.pauseCount ∧
     (handleEvent MediaEvent.pause s).elPaused = s.elPaused) := by
  cases b <;>
    simp [writeCurrentTime, currentTimeWatchCb, writePlaying, playingWatchCb,
      handleEvent]

/-- Claim C3, counterexample part: at a concrete state with
`buffering = false`, every one of the fourteen registered event handlers
leaves `buffering` at `false` — there is no listener writing it, unlike
the other four flags. -/
theorem buffering_never_written_by_events :
    sampleSync.buffering = false ∧
    (handleEvent MediaEvent.timeupdate sampleSync).buffering = false ∧
    (handleEvent MediaEvent.durationchange sampleSync).buffering = false ∧
    (handleEvent MediaEvent.progress sampleSync).buffering = false ∧
    (handleEvent MediaEvent.seeking sampleSync).buffering = false ∧
    (handleEvent MediaEvent.seeked sampleSync).buffering = false ∧
    (handleEvent MediaEvent.waiting sampleSync).buffering = false ∧
    (handleEvent MediaEvent.playing sampleSync).buffering = false ∧
    (handleEvent MediaEvent.ratechange sampleSync).buffering = false ∧
    (handleEvent MediaEvent.stalled sampleSync).buffering = false ∧
    (handleEvent MediaEvent.ended sampleSync).buffering = false ∧
    (handleEvent MediaEvent.pause sampleSync).buffering = false ∧
    (handleEvent MediaEvent.play sampleSync).buffering = false ∧
    (handleEvent MediaEvent.enterpictureinpicture sampleSync).buffering = false ∧
    (handleEvent MediaEvent.leavepictureinpicture sampleSync).buffering = false := by
  decide

/-- Claim C3 as amended: `seeking`, `waiting`, `stalled` and `ended` each
have a native-event listener that writes them (element-to-state), but
`buffering` has none — no event handler ever changes it. -/
theorem derived_flags_written_buffering_never (s : SyncState) :
    (handleEvent MediaEvent.seeking s).seeking = true ∧
    (handleEvent MediaEvent.seeked s).seeking = false ∧
    (handleEvent MediaEvent.waiting s).waiting = true ∧
    (handleEvent MediaEvent.playing s).waiting = false ∧
    (handleEvent MediaEvent.stalled s).stalled = true ∧
    (handleEvent MediaEvent.ended s).ended = true ∧
    ∀ e : MediaEvent, (handleEvent e s).buffering = s.buffering := by
  refine ⟨rfl, rfl, rfl, rfl, rfl, rfl, ?_⟩
  intro e
  cases e <;>
    simp [handleEvent, writeCurrentTime, currentTimeWatchCb, writePlaying,
      playingWatchCb]

/-- Claim C5: with a creation context and a bound element, a single-string
`src` yields exactly one `<source>` child with that url and an empty
codec-type attribute; a descriptor list yields one child per entry, in
list order, with matching url and codec attributes (`type || ''`); and
`load()` is invoked exactly once per reconciliation run. -/
theorem sourcesWatchEffect_normalization (e : MediaElSources) (a : String)
    (l : List UseMediaSource) (h : a ≠ "") :
    (sourcesWatchEffect true (some e) (some (SrcOption.str a)) =
      some { sources := [{ src := a, type := "", errorListeners := 1 }],
             loadCount := e.loadCount + 1 }) ∧
    (∃ e2, sourcesWatchEffect true (some e) (some (SrcOption.many l)) = some e2 ∧
      e2.loadCount = e.loadCount + 1 ∧
      e2.sources.length = l.length ∧
      ∀ i : Nat, (hi : i < e2.sources.length) → ∃ hi' : i < l.length,
        (e2.sources[i]).src = (l[i]).src ∧
        (e2.sources[i]).type = (l[i]).type.getD "" ∧
        (e2.sources[i]).errorListeners = 1) := by
  constructor
  · simp [sourcesWatchEffect, srcTruthy, normalizeSrc, h]
  · refine ⟨⟨l.map (fun d => ⟨d.src, d.type.getD "", 1⟩), e.loadCount + 1⟩,
      by simp [sourcesWatchEffect, srcTruthy, normalizeSrc], rfl, by simp, ?_⟩
    intro i hi
    simp only [List.length_map] at hi
    exact ⟨hi, by simp [List.getElem_map]⟩

/-- Witness for `sourcesWatchEffect_normalization`: src `"a.mp4"` and the
two-entry list from the spec, on an element with one stale source child
and three prior loads. -/
theorem sourcesWatchEffect_normalization_witness :
    ("a.mp4" : String) ≠ "" ∧
    ((sourcesWatchEffect true
        (some { sources := [{ src := "old", type := "", errorListeners := 1 }],
                loadCount := 3 })
        (some (SrcOption.str "a.mp4")) =
      some { sources := [{ src := "a.mp4", type := "", errorListeners := 1 }],
             loadCount := 4 }) ∧
    (∃ e2, sourcesWatchEffect true
        (some { sources := [{ src := "old", type := "", errorListeners := 1 }],
                loadCount := 3 })
        (some (SrcOption.many
          [{ src := "a.mp4", type := some "video/mp4" },
           { src := "a.ogv", type := some "video/ogg" }])) = some e2 ∧
      e2.loadCount = 4 ∧
      e2.sources.length =
        ([{ src := "a.mp4", type := some "video/mp4" },
          { src := "a.ogv", type := some "video/ogg" }] : List UseMediaSource).length ∧
      ∀ i : Nat, (hi : i < e2.sources.length) →
        ∃ hi' : i < ([{ src := "a.mp4", type := some "video/mp4" },
            { src := "a.ogv", type := some "video/ogg" }] : List UseMediaSource).length,
          (e2.sources[i]).src =
            (([{ src := "a.mp4", type := some "video/mp4" },
               { src := "a.ogv", type := some "video/ogg" }] :
                List UseMediaSource)[i]).src ∧
          (e2.sources[i]).type =
            (([{ src := "a.mp4", type := some "video/mp4" },
               { src := "a.ogv", type := some "video/ogg" }] :
                List UseMediaSource)[i]).type.getD "" ∧
          (e2.sources[i]).errorListeners = 1)) := by
  refine ⟨by decide, ?_⟩
  have h := sourcesWatchEffect_normalization
    { sources := [{ src := "old", type := "", errorListeners := 1 }], loadCount := 3 }
    "a.mp4"
    [{ src := "a.mp4", type := some "video/mp4" },
     { src := "a.ogv", type := some "video/ogg" }]
    (by decide)
  simpa using h

/-- Claim C6: with a falsy `src` option (absent, or the empty string) the
source-reconciliation effect exits early and the element is untouched:
its `<source>` children — listeners included — and its load count are
exactly what they were. -/
theorem sourcesWatchEffect_falsy_noop (doc : Bool) (e : MediaElSources)
    (srcOpt : Option SrcOption) (h : srcTruthy srcOpt = false) :
    sourcesWatchEffect doc (some e) srcOpt = some e := by
  cases doc <;> simp [sourcesWatchEffect, h]

/-- Witness for `sourcesWatchEffect_falsy_noop`: the empty-string `src`
(the composable's default) on an element with one source child. -/
theorem sourcesWatchEffect_falsy_noop_witness :
    srcTruthy (some (SrcOption.str "")) = false ∧
    sourcesWatchEffect true
        (some { sources := [{ src := "old", type := "t", errorListeners := 1 }],
                loadCount := 2 })
        (some (SrcOption.str "")) =
      some { sources := [{ src := "old", type := "t", errorListeners := 1 }],
             loadCount := 2 } :=
  ⟨by decide,
    sourcesWatchEffect_falsy_noop true
      { sources := [{ src := "old", type := "t", errorListeners := 1 }], loadCount := 2 }
      (some (SrcOption.str "")) (by decide)⟩

/-- Helper: the descriptor loop leaves `selectedTrack` untouched when no
descriptor's created `<track>` has the default flag. Stated over
`enumFrom` to allow induction at any starting ordinal. -/
theorem selectedFold_no_default (ts : List UseMediaTextTrackSource) (n : Nat) (sel : Int)
    (h : ∀ d ∈ ts, (buildTrackEl d).default = false) :
    (ts.enumFrom n).foldl
      (fun acc p => if (buildTrackEl p.2).default then Int.ofNat p.1 else acc) sel
      = sel := by
  induction ts generalizing n sel with
  | nil => rfl
  | cons d rest ih =>
    have hd : (buildTrackEl d).default = false := h d (by simp)
    simp only [List.enumFrom_cons, List.foldl_cons, hd, Bool.false_eq_true, if_false]
    exact ih (n + 1) sel (fun d' hd' => h d' (by simp [hd']))

/-- Helper: when the descriptor at ordinal `pre.length` has the default
flag and no later descriptor does, the loop's final `selectedTrack` is
that ordinal (last default wins). -/
theorem selectedFold_last_default (pre post : List UseMediaTextTrackSource)
    (d : UseMediaTextTrackSource) (n : Nat) (sel : Int)
    (hd : (buildTrackEl d).default = true)
    (hpost : ∀ d' ∈ post, (buildTrackEl d').default = false) :
    (((pre ++ d :: post)).enumFrom n).foldl
      (fun acc p => if (buildTrackEl p.2).default then Int.ofNat p.1 else acc) sel
      = Int.ofNat (n + pre.length) := by
  rw [List.enumFrom_append, List.foldl_append, List.enumFrom_cons, List.foldl_cons]
  simp only [hd, if_true]
  exact selectedFold_no_default post (n + pre.length + 1) _ hpost

/-- Claim C7: with a creation context and a bound element, a non-empty
descriptor list produces exactly one `<track>` child per descriptor,
appended in list order with the descriptor's fields; `selectedTrack` is
untouched when no descriptor is default, and equals the ordinal of the
last default descriptor otherwise. -/
theorem loadTracksWatchEffect_spec (ts : List UseMediaTextTrackSource)
    (el : List TrackEl) (sel : Int) (h : ts ≠ []) :
    ((loadTracksWatchEffect true (some el) (some ts) sel).1 =
        some (ts.map buildTrackEl) ∧
      (ts.map buildTrackEl).length = ts.length) ∧
    ((∀ d ∈ ts, (buildTrackEl d).default = false) →
      (loadTracksWatchEffect true (some el) (some ts) sel).2 = sel) ∧
    (∀ pre d post, ts = pre ++ d :: post →
      (buildTrackEl d).default = true →
      (∀ d' ∈ post, (buildTrackEl d').default = false) →
      (loadTracksWatchEffect true (some el) (some ts) sel).2 = Int.ofNat pre.length) := by
  have hlen : ¬ ts.length = 0 := by simpa [List.length_eq_zero] using h
  refine ⟨⟨by simp [loadTracksWatchEffect, hlen], by simp⟩, ?_, ?_⟩
  · intro hnone
    simp only [loadTracksWatchEffect, if_true, hlen, if_false]
    simpa [tracksEffectSelected, List.enum] using
      selectedFold_no_default ts 0 sel hnone
  · intro pre d post hts hd hpost
    simp only [loadTracksWatchEffect, if_true, hlen, if_false]
    subst hts
    simpa [tracksEffectSelected, List.enum] using
      selectedFold_last_default pre post d 0 sel hd hpost

/-- Witness for `loadTracksWatchEffect_spec` at the spec's two-descriptor
example: the French track (index 1) is the only default, so the created
children are the two descriptors' tracks in order and `selectedTrack`
ends at 1. -/
theorem loadTracksWatchEffect_spec_witness :
    ([sampleTrackSrcEn, sampleTrackSrcFr] : List UseMediaTextTrackSource) ≠ [] ∧
    (loadTracksWatchEffect true (some [])
        (some [sampleTrackSrcEn, sampleTrackSrcFr]) (-1)).1 =
      some [buildTrackEl sampleTrackSrcEn, buildTrackEl sampleTrackSrcFr] ∧
    (loadTracksWatchEffect true (some [])
        (some [sampleTrackSrcEn, sampleTrackSrcFr]) (-1)).2 = 1 := by
  have h := loadTracksWatchEffect_spec [sampleTrackSrcEn, sampleTrackSrcFr] [] (-1)
    (by decide)
  refine ⟨by decide, ?_, ?_⟩
  · simpa using h.1.1
  · simpa using h.2.2 [sampleTrackSrcEn] sampleTrackSrcFr [] rfl (by decide) (by simp)

/-- Claim C8: with a bound element of at least two native tracks,
`enableTrack(0)` then `enableTrack(1)` (default `disableTracks`) leaves
exactly native track 1 "showing" and every other track "disabled", with
`selectedTrack = 1`; and `disableTrack()` with no argument — from any
bound state — leaves every native track "disabled" and
`selectedTrack = -1`. -/
theorem enableTrack_sequence_then_disable_all (modes : List TextTrackMode) (sel : Int)
    (h : 2 ≤ modes.length) :
    (∃ s1 s2,
      enableTrack { el := some modes, selectedTrack := sel } (TrackRef.num 0) true =
        some s1 ∧
      enableTrack s1 (TrackRef.num 1) true = some s2 ∧
      s2.selectedTrack = 1 ∧
      ∃ m2, s2.el = some m2 ∧ m2.length = modes.length ∧
        ∀ (i : Nat) (hi : i < m2.length),
          m2[i] = if i = 1 then TextTrackMode.showing else TextTrackMode.disabled) ∧
    (∀ (ms : List TextTrackMode) (sel0 : Int),
      ∃ s3, disableTrack { el := some ms, selectedTrack := sel0 } none = some s3 ∧
        s3.selectedTrack = -1 ∧
        ∃ m3, s3.el = some m3 ∧ m3.length = ms.length ∧
          ∀ (i : Nat) (hi : i < m3.length), m3[i] = TextTrackMode.disabled) := by
  have h0 : 0 < modes.length := by omega
  have h1 : 1 < modes.length := by omega
  constructor
  · refine ⟨⟨some ((disableAllModes modes).set 0 TextTrackMode.showing), Int.ofNat 0⟩,
      ⟨some ((disableAllModes ((disableAllModes modes).set 0
          TextTrackMode.showing)).set 1 TextTrackMode.showing), Int.ofNat 1⟩,
      ?_, ?_, rfl,
      (disableAllModes ((disableAllModes modes).set 0
          TextTrackMode.showing)).set 1 TextTrackMode.showing,
      rfl, ?_, ?_⟩
    · simp [enableTrack, setTrackMode, TrackRef.id, disableAllModes, h0]
    · simp [enableTrack, setTrackMode, TrackRef.id, disableAllModes, h1]
    · simp [disableAllModes]
    · intro i hi
      simp only [disableAllModes, List.map_set, List.map_map] at hi ⊢
      by_cases e1 : i = 1
      · subst e1
        simp [List.getElem_set]
      · have e1' : ¬(1 = i) := fun hh => e1 hh.symm
        simp [List.getElem_set, e1, e1', List.getElem_map]
  · intro ms sel0
    refine ⟨⟨some (disableAllModes ms), -1⟩, by simp [disableTrack], rfl,
      disableAllModes ms, rfl, by simp [disableAllModes], ?_⟩
    intro i hi
    simp only [disableAllModes] at hi ⊢
    simp [List.getElem_map]

/-- Witness for `enableTrack_sequence_then_disable_all` at a concrete
two-track element. -/
theorem enableTrack_sequence_then_disable_all_witness :
    2 ≤ ([TextTrackMode.hidden, TextTrackMode.hidden] : List TextTrackMode).length ∧
    ((∃ s1 s2,
      enableTrack ⟨some [TextTrackMode.hidden, TextTrackMode.hidden], 7⟩
          (TrackRef.num 0) true = some s1 ∧
      enableTrack s1 (TrackRef.num 1) true = some s2 ∧
      s2.selectedTrack = 1 ∧
      ∃ m2, s2.el = some m2 ∧
        m2.length = ([TextTrackMode.hidden, TextTrackMode.hidden] :
          List TextTrackMode).length ∧
        ∀ (i : Nat) (hi : i < m2.length),
          m2[i] = if i = 1 then TextTrackMode.showing else TextTrackMode.disabled) ∧
    (∀ (ms : List TextTrackMode) (sel0 : Int),
      ∃ s3, disableTrack { el := some ms, selectedTrack := sel0 } none = some s3 ∧
        s3.selectedTrack = -1 ∧
        ∃ m3, s3.el = some m3 ∧ m3.length = ms.length ∧
          ∀ (i : Nat) (hi : i < m3.length), m3[i] = TextTrackMode.disabled)) :=
  ⟨by decide,
    enableTrack_sequence_then_disable_all [TextTrackMode.hidden, TextTrackMode.hidden] 7
      (by decide)⟩

end MediaControls
